import Mathlib

/-!
Verification development for the request-coordination core of the
GeneralControlServer repository (`src/communication/communication_handler.rs`
and the state/type definitions it operates on).

The coordinator's handlers are embedded as pure Lean functions.  Machine
integers (`i32`) are modelled as `Int` (only equality and membership tests
occur, no overflowing arithmetic).  `HashMap` is modelled as an association
list read through `List.lookup`, and `HashSet` as a `List` read through
`List.contains`.  The payload string of a request is modelled as an abstract
JSON value (`Json` below); the spec explicitly excludes the JSON wire
encoding itself from the core, so string-to-JSON parsing is out of scope and
`serde_json::from_str` of a typed shape becomes a total function
`Json → Option Shape`.  A Rust `panic!` (from `Option::unwrap` on `None`)
is modelled as the handler returning `none`.

External collaborators (Data Fetcher, Room Mutator, Response Sink, the
web-RTC validity helper) are not present under `src/`; they are passed in as
explicit function-valued parameters, so every theorem quantifies over their
behaviour, and the coordinator's own control flow is the only thing fixed.
-/

/-- A scalar JSON field value. -/
inductive JsonVal where
  | jnum (n : Int)
  | jstr (s : String)
  | jbool (b : Bool)
  | jnull
deriving DecidableEq

/-- An inbound payload, as the JSON value the payload string denotes.
`obj` is a JSON object (field list), `nonObj` is valid JSON that is not an
object (array or scalar), and `malformed` stands for a payload string that
is not valid JSON at all, so that even `serde_json::Value` parsing fails. -/
inductive Json where
  | obj (fields : List (String × JsonVal))
  | nonObj
  | malformed
deriving DecidableEq

/-- Look up a field of a JSON object; `none` on non-objects. -/
def Json.getField (j : Json) (key : String) : Option JsonVal :=
  match j with
  | .obj fields => fields.lookup key
  | _ => none

/-- Extract a string-typed field, as serde does for a `String` struct field. -/
def Json.getStr (j : Json) (key : String) : Option String :=
  match j.getField key with
  | some (.jstr s) => some s
  | _ => none

/-- Extract an integer-typed field, as serde does for an `i32` struct field. -/
def Json.getInt (j : Json) (key : String) : Option Int :=
  match j.getField key with
  | some (.jnum n) => some n
  | _ => none

/-- Extract a boolean-typed field, as serde does for a `bool` struct field. -/
def Json.getBool (j : Json) (key : String) : Option Bool :=
  match j.getField key with
  | some (.jbool b) => some b
  | _ => none

/-- Typed shape of a create-room payload (`communication_types::BasicRoomCreation`). -/
structure BasicRoomCreation where
  name : String
  desc : String
  public : Bool
deriving DecidableEq

/-- Typed shape of the room/peer payloads (`communication_types::GenericRoomIdAndPeerId`). -/
structure GenericRoomIdAndPeerId where
  roomId : Int
  peerId : Int
deriving DecidableEq

/-- Typed shape of a block-user payload (`communication_types::BlockUserFromRoom`). -/
structure BlockUserFromRoom where
  user_id : Int
  room_id : Int
deriving DecidableEq

/-- Typed shape of a follow-list payload (`communication_types::GetFollowList`).
Modelled from the spec: `communication_types.rs` is not under `src/` (the
`types.rs` that is present is a divergent older revision); the handler passes
`&request_data.user_id` to a string-parsing helper together with
`&"-1".to_string()`, which forces `user_id : String`. -/
structure GetFollowList where
  user_id : String
deriving DecidableEq

/-- The inbound request envelope (`communication_types::BasicRequest`), with
the payload string abstracted to the JSON value it denotes. -/
structure BasicRequest where
  request_op_code : String
  request_containing_data : Json
deriving DecidableEq

/-- serde parse of `BasicRoomCreation` from a payload. -/
def parseBasicRoomCreation (j : Json) : Option BasicRoomCreation := do
  let name ← j.getStr "name"
  let desc ← j.getStr "desc"
  let public ← j.getBool "public"
  pure ⟨name, desc, public⟩

/-- serde parse of `GenericRoomIdAndPeerId` from a payload. -/
def parseGenericRoomIdAndPeerId (j : Json) : Option GenericRoomIdAndPeerId := do
  let roomId ← j.getInt "roomId"
  let peerId ← j.getInt "peerId"
  pure ⟨roomId, peerId⟩

/-- serde parse of `BlockUserFromRoom` from a payload. -/
def parseBlockUserFromRoom (j : Json) : Option BlockUserFromRoom := do
  let user_id ← j.getInt "user_id"
  let room_id ← j.getInt "room_id"
  pure ⟨user_id, room_id⟩

/-- serde parse of `GetFollowList` from a payload. -/
def parseGetFollowList (j : Json) : Option GetFollowList := do
  let user_id ← j.getStr "user_id"
  pure ⟨user_id⟩

/-- serde parse into `serde_json::Value` (used by the web-RTC handler):
fails exactly when the payload string is not valid JSON. -/
def parseJsonValue (j : Json) : Option Json :=
  match j with
  | .malformed => none
  | _ => some j

/-- An active user of World State.
Modelled from the spec: `state/state.rs` is not under `src/` (the
`state_types.rs` present is a divergent older revision keyed by strings);
the spec's §3 User carries presence flags and `current_room_id : i32` with
sentinel `-1`, which is exactly how the handlers read it. -/
structure User where
  muted : Bool
  deaf : Bool
  current_room_id : Int
deriving DecidableEq

/-- An active room of World State.
Modelled from the spec: `state/state.rs` is not under `src/`; fields follow
the spec's §3 Room and the handlers' reads (`user_ids`, `public`,
`amount_of_users`, `room_id`, `auto_speaker`, `voice_server_id`). -/
structure Room where
  room_id : Int
  owner_user_id : Int
  voice_server_id : String
  muted : List Int
  deaf : List Int
  user_ids : List Int
  public : Bool
  auto_speaker : Bool
  chat_mode : String
  amount_of_users : Int
deriving DecidableEq

/-- World State (`state::state::ServerState`): the user map and the room map.
Modelled from the spec: the aggregate container of §3, a mapping from user id
to `User` and from room id to `Room`, here as association lists. -/
structure ServerState where
  active_users : List (Int × User)
  rooms : List (Int × Room)
deriving DecidableEq

/-- A user preview projection (`communication_types::UserPreview`). -/
structure UserPreview where
  display_name : String
  avatar_url : String
deriving DecidableEq

/-- The enriched room record produced by the top-rooms read path
(`communication_types::CommunicationRoom`), with the fields the core
computes; purely decorative fields of the wire type are omitted. -/
structure CommunicationRoom where
  room_id : Int
  num_of_people_in_room : Int
  voice_server_id : String
  creator_id : Int
  people_preview_data : List (Int × UserPreview)
  auto_speaker_setting : Bool
  chat_mode : String
deriving DecidableEq

/-- The Data Fetcher (`communication::data_fetcher`), an external collaborator.
Modelled from the spec: §6 — each query returns a flag alongside data; in the
source tuples the first component is the `encountered_error` flag (the code
comments in the handlers say so explicitly). -/
structure DataFetcher where
  get_blocked_user_ids_for_room : Int → Bool × List Int
  get_follower_user_ids_for_user : Int → Bool × List Int
  get_following_user_ids_for_user : Int → Bool × List Int
  get_user_previews_for_users : List Int → Bool × List (Int × UserPreview)
  get_room_owner_and_settings : Int → Bool × Int × String

/-- A delegation to the Room Mutator (`rooms::room_handler`), recording the
entry point invoked and the arguments the coordinator passes it. -/
inductive MutatorCall where
  | create_room (requester_id : Int) (name : String) (desc : String) (public : Bool)
  | join_room (roomId : Int) (peerId : Int) (requester_id : Int) (type_of_join : String)
  | block_user_from_room (user_id : Int) (room_id : Int) (requester_id : Int)
  | add_speaker (roomId : Int) (peerId : Int) (requester_id : Int)
  | remove_speaker (roomId : Int) (peerId : Int) (requester_id : Int)
  | raise_hand (room_id : Int) (requester_id : Int)
  | lower_hand (room_id : Int) (peer_id : Int) (requester_id : Int)
  | web_rtc (op_code : String) (request_data : Json)
deriving DecidableEq

/-- The Room Mutator's effect on World State, an external collaborator.
Modelled from the spec: §6 — one operation per mutating request kind, each
committing the transition on the exclusive view; its actual transition
function is opaque to the coordinator, so it is a parameter here. -/
structure RoomMutator where
  apply : MutatorCall → ServerState → ServerState

/-- The payload of an outbound message.  The spec excludes JSON serialization
from the core, so instead of a serialized string the message carries the
structured data it would serialize: `raw` for fixed strings, `rooms` for the
one-shot top-rooms list, `followList` for a follow list tagged with the
target id. -/
inductive MsgPayload where
  | raw (s : String)
  | rooms (l : List CommunicationRoom)
  | followList (user_ids : List Int) (for_user : Int)
deriving DecidableEq

/-- An outbound message delivered to the requester through the Response Sink
(`common_response_logic::send_to_requester_channel`).
Modelled from the spec: §6 Response Sink — `deliver(requester_id, tag,
payload)` writes one framed response to the requester's live connection and
does not modify the user/room maps; every send in the coordinator targets the
requester of the handled request, so the target id is implicit. -/
structure Msg where
  op_code : String
  payload : MsgPayload
deriving DecidableEq

/-- The uniform rejection delivered by `send_error_response_to_requester`:
fixed tag and fixed human-readable payload, taken verbatim from the source. -/
def uniformRejection : Msg :=
  ⟨"invalid_request", .raw "issue with request"⟩

/-- Whether a handler invocation returned `Ok(())` or propagated a serde
parse error (`Err`) to its caller through the `?` operator. -/
inductive HOutcome where
  | ok
  | parseErr
deriving DecidableEq

/-- The observable result of one handler invocation: the Rust return value,
the final World State, the messages delivered to the requester, and the Room
Mutator delegations performed — in order. -/
structure HandlerResult where
  outcome : HOutcome
  state : ServerState
  sent : List Msg
  calls : List MutatorCall
deriving DecidableEq

/-- `send_error_response_to_requester`: drops the read view, takes the write
view and delivers the single uniform rejection; World State maps unchanged. -/
def send_error_response_to_requester (st : ServerState) : HandlerResult :=
  ⟨.ok, st, [uniformRejection], []⟩

/-- The web-RTC validity helper
(`communication_handler_helpers::web_rtc_request_is_valid`), an external
helper not under `src/`, passed as a parameter. -/
structure Helpers where
  web_rtc_request_is_valid : ServerState → Json → Int → Bool

/-- `communication_handler::create_room`: parse `BasicRoomCreation`; if the
requester exists in the user map with `current_room_id == -1`, delegate to
the Room Mutator's `create_room`; otherwise send the uniform rejection. -/
def create_room (request : BasicRequest) (st : ServerState) (rm : RoomMutator)
    (requester_id : Int) : HandlerResult :=
  match parseBasicRoomCreation request.request_containing_data with
  | none => ⟨.parseErr, st, [], []⟩
  | some request_data =>
    match st.active_users.lookup requester_id with
    | some u =>
      if u.current_room_id == -1 then
        let call := MutatorCall.create_room requester_id request_data.name
          request_data.desc request_data.public
        ⟨.ok, rm.apply call st, [], [call]⟩
      else
        send_error_response_to_requester st
    | none => send_error_response_to_requester st

/-- `communication_handler::block_user_from_room`: parse `BlockUserFromRoom`;
if the room exists and both the requester and the target are in its
`user_ids`, delegate to the Room Mutator; otherwise the uniform rejection. -/
def block_user_from_room (request : BasicRequest) (st : ServerState)
    (rm : RoomMutator) (requester_id : Int) : HandlerResult :=
  match parseBlockUserFromRoom request.request_containing_data with
  | none => ⟨.parseErr, st, [], []⟩
  | some request_data =>
    match st.rooms.lookup request_data.room_id with
    | some room =>
      if room.user_ids.contains requester_id && room.user_ids.contains request_data.user_id then
        let call := MutatorCall.block_user_from_room request_data.user_id
          request_data.room_id requester_id
        ⟨.ok, rm.apply call st, [], [call]⟩
      else
        send_error_response_to_requester st
    | none => send_error_response_to_requester st

/-- `communication_handler::join_room`: parse `GenericRoomIdAndPeerId`; the
source condition is `rooms.contains_key(&room_id) &&
active_users.get(&peer_id).unwrap().current_room_id == -1 &&
rooms.get(&room_id).unwrap().public`, so when the room exists but the peer id
is absent from the user map the `unwrap()` panics — modelled as `none`.  If
the condition holds, the blocked-user set is fetched; only when the fetch
reports no error and the peer is not in the set does the handler delegate;
every other completed path sends the uniform rejection. -/
def join_room (request : BasicRequest) (st : ServerState) (df : DataFetcher)
    (rm : RoomMutator) (requester_id : Int) (type_of_join : String) :
    Option HandlerResult :=
  match parseGenericRoomIdAndPeerId request.request_containing_data with
  | none => some ⟨.parseErr, st, [], []⟩
  | some request_data =>
    let room_id := request_data.roomId
    let peer_id := request_data.peerId
    match st.rooms.lookup room_id with
    | none => some (send_error_response_to_requester st)
    | some room =>
      match st.active_users.lookup peer_id with
      | none => none
      | some peer =>
        if peer.current_room_id == -1 && room.public then
          let blocked_result := df.get_blocked_user_ids_for_room room_id
          if blocked_result.1 == false && !(blocked_result.2.contains peer_id) then
            let call := MutatorCall.join_room room_id peer_id requester_id type_of_join
            some ⟨.ok, rm.apply call st, [], [call]⟩
          else
            some (send_error_response_to_requester st)
        else
          some (send_error_response_to_requester st)

/-- `communication_handler::add_or_remove_speaker`: parse
`GenericRoomIdAndPeerId`; if the room exists and both requester and peer are
in its `user_ids`, delegate to `add_speaker` when the flag is `"add"` and to
`remove_speaker` otherwise; else the uniform rejection. -/
def add_or_remove_speaker (request : BasicRequest) (st : ServerState)
    (rm : RoomMutator) (requester_id : Int) (add_or_remove : String) :
    HandlerResult :=
  match parseGenericRoomIdAndPeerId request.request_containing_data with
  | none => ⟨.parseErr, st, [], []⟩
  | some request_data =>
    let room_id := request_data.roomId
    let peer_id := request_data.peerId
    match st.rooms.lookup room_id with
    | some room =>
      if room.user_ids.contains requester_id && room.user_ids.contains peer_id then
        if add_or_remove == "add" then
          let call := MutatorCall.add_speaker room_id peer_id requester_id
          ⟨.ok, rm.apply call st, [], [call]⟩
        else
          let call := MutatorCall.remove_speaker room_id peer_id requester_id
          ⟨.ok, rm.apply call st, [], [call]⟩
      else
        send_error_response_to_requester st
    | none => send_error_response_to_requester st

/-- `communication_handler::raise_hand_or_lower_hand`: parse
`GenericRoomIdAndPeerId`; if the room exists and both requester and peer are
in its `user_ids`, delegate to `lower_hand` when the flag is `"lower"`
(passing the peer) and to `raise_hand` otherwise (passing only the
requester); else the uniform rejection. -/
def raise_hand_or_lower_hand (request : BasicRequest) (st : ServerState)
    (rm : RoomMutator) (requester_id : Int) (type_of_hand_action : String) :
    HandlerResult :=
  match parseGenericRoomIdAndPeerId request.request_containing_data with
  | none => ⟨.parseErr, st, [], []⟩
  | some request_data =>
    let room_id := request_data.roomId
    let peer_id := request_data.peerId
    match st.rooms.lookup room_id with
    | some room =>
      if room.user_ids.contains requester_id && room.user_ids.contains peer_id then
        if type_of_hand_action == "lower" then
          let call := MutatorCall.lower_hand room_id peer_id requester_id
          ⟨.ok, rm.apply call st, [], [call]⟩
        else
          let call := MutatorCall.raise_hand room_id requester_id
          ⟨.ok, rm.apply call st, [], [call]⟩
      else
        send_error_response_to_requester st
    | none => send_error_response_to_requester st

/-- `communication_handler::handle_web_rtc_request`: parse into a generic
JSON value; if the helper declares the request valid, delegate to the web-RTC
relay (which receives no World State handle and so cannot mutate it); else
the uniform rejection. -/
def handle_web_rtc_request (request : BasicRequest) (st : ServerState)
    (hp : Helpers) (requester_id : Int) (op_code : String) : HandlerResult :=
  match parseJsonValue request.request_containing_data with
  | none => ⟨.parseErr, st, [], []⟩
  | some request_data =>
    if hp.web_rtc_request_is_valid st request_data requester_id then
      ⟨.ok, st, [], [MutatorCall.web_rtc op_code request_data]⟩
    else
      send_error_response_to_requester st

/-- Accumulate decimal digits; fails on the first non-digit character. -/
def parseDecNatAux : List Char → Nat → Option Nat
  | [], acc => some acc
  | c :: cs, acc =>
    if c.isDigit then parseDecNatAux cs (acc * 10 + (c.toNat - 48)) else none

/-- Parse a decimal integer with an optional leading minus sign; fails on the
empty string and on any non-digit character. -/
def stringToIntModel (s : String) : Option Int :=
  match s.data with
  | [] => none
  | '-' :: rest =>
    match rest with
    | [] => none
    | _ => (parseDecNatAux rest 0).map (fun n => -(n : Int))
  | cs => (parseDecNatAux cs 0).map (fun n => (n : Int))

/-- `communication_handler_helpers::parse_peer_and_room_id`.
Modelled from the spec: the helper is not under `src/`; it parses the two id
strings into `i32`s and fails when either does not parse, which is the only
behaviour the handler relies on. -/
def parse_peer_and_room_id (peer : String) (room : String) : Option (Int × Int) :=
  match stringToIntModel peer, stringToIntModel room with
  | some p, some r => some (p, r)
  | _, _ => none

/-- `communication_handler_helpers::send_follow_list`.
Modelled from the spec: §4.4 — forwards the resulting id set, tagged with the
original target id, to the Response Sink. -/
def send_follow_list (target : Bool × List Int) (peer_id : Int) : Msg :=
  ⟨"follow_list", .followList target.2 peer_id⟩

/-- `communication_handler::get_followers_or_following_list`: parse
`GetFollowList`; run the secondary peer-and-room-id parse on its `user_id`
with the constant `"-1"` room string, returning `Ok(())` silently when that
fails; otherwise query the Data Fetcher (followers or following, by the
request-kind flag) and forward the list. -/
def get_followers_or_following_list (request : BasicRequest) (st : ServerState)
    (df : DataFetcher) (type_of_request : String) : HandlerResult :=
  match parseGetFollowList request.request_containing_data with
  | none => ⟨.parseErr, st, [], []⟩
  | some request_data =>
    match parse_peer_and_room_id request_data.user_id "-1" with
    | none => ⟨.ok, st, [], []⟩
    | some room_and_peer_id =>
      let peer_id := room_and_peer_id.1
      let target :=
        if type_of_request == "followers" then
          df.get_follower_user_ids_for_user peer_id
        else
          df.get_following_user_ids_for_user peer_id
      ⟨.ok, st, [send_follow_list target peer_id], []⟩

/-- The sort key order used by `get_top_rooms`:
`all_rooms.sort_by_key(|room| room.amount_of_users)` — ascending. -/
def roomLe (a b : Room) : Prop :=
  a.amount_of_users ≤ b.amount_of_users

instance : DecidableRel roomLe :=
  fun a b => inferInstanceAs (Decidable (a.amount_of_users ≤ b.amount_of_users))

instance : IsTotal Room roomLe :=
  ⟨fun a b => Int.le_total a.amount_of_users b.amount_of_users⟩

instance : IsTrans Room roomLe :=
  ⟨fun _ _ _ h1 h2 => le_trans h1 h2⟩

/-- `communication_handler_helpers::construct_communication_room`.
Modelled from the spec: §4.3 — enriches one room with its member preview
projection and its owner/chat-mode settings and pushes the record onto the
accumulating list. -/
def construct_communication_room (previews : List (Int × UserPreview))
    (room : Room) (acc : List CommunicationRoom) (owner_id : Int)
    (chat_mode : String) : List CommunicationRoom :=
  acc ++ [⟨room.room_id, room.amount_of_users, room.voice_server_id, owner_id,
    previews, room.auto_speaker, chat_mode⟩]

/-- The per-room loop body of `get_top_rooms`: fetch previews and
owner/settings for each room in order; when either fetch reports its error
flag the room is skipped, otherwise the enriched record is appended. -/
def top_rooms_loop (df : DataFetcher) :
    List Room → List CommunicationRoom → List CommunicationRoom
  | [], acc => acc
  | room :: rest, acc =>
    let previews := df.get_user_previews_for_users room.user_ids
    let owner_data_and_chat_mode := df.get_room_owner_and_settings room.room_id
    if previews.1 || owner_data_and_chat_mode.1 then
      top_rooms_loop df rest acc
    else
      top_rooms_loop df rest
        (construct_communication_room previews.2 room acc
          owner_data_and_chat_mode.2.1 owner_data_and_chat_mode.2.2)

/-- `communication_handler::get_top_rooms`: snapshot all rooms, sort them by
`amount_of_users` ascending, run the enrichment loop, then deliver the whole
list in one message tagged `"top_rooms"`.  No parse, no precondition, no
mutation, no mutator delegation. -/
def get_top_rooms (st : ServerState) (df : DataFetcher) : HandlerResult :=
  let all_rooms := List.insertionSort roomLe (st.rooms.map Prod.snd)
  let communication_rooms := top_rooms_loop df all_rooms []
  ⟨.ok, st, [⟨"top_rooms", .rooms communication_rooms⟩], []⟩

/-- The operation kinds of the coordinator, one per handler entry point, each
carrying the auxiliary string flag its Rust entry point receives. -/
inductive Op where
  | createRoom
  | joinRoom (type_of_join : String)
  | blockUserFromRoom
  | addOrRemoveSpeaker (add_or_remove : String)
  | raiseOrLowerHand (type_of_hand_action : String)
  | webRtc (op_code : String)
  | getFollowList (type_of_request : String)
  | getTopRooms
deriving DecidableEq

/-- The coordinator's dispatch: run the handler for an operation.  `none`
models a panic of the handling task (only `join_room` can panic). -/
def handle (op : Op) (request : BasicRequest) (st : ServerState)
    (df : DataFetcher) (hp : Helpers) (rm : RoomMutator) (requester_id : Int) :
    Option HandlerResult :=
  match op with
  | .createRoom => some (create_room request st rm requester_id)
  | .joinRoom t => join_room request st df rm requester_id t
  | .blockUserFromRoom => some (block_user_from_room request st rm requester_id)
  | .addOrRemoveSpeaker flag => some (add_or_remove_speaker request st rm requester_id flag)
  | .raiseOrLowerHand flag => some (raise_hand_or_lower_hand request st rm requester_id flag)
  | .webRtc oc => some (handle_web_rtc_request request st hp requester_id oc)
  | .getFollowList t => some (get_followers_or_following_list request st df t)
  | .getTopRooms => some (get_top_rooms st df)

/-- Whether the payload of a request parses into the operation's typed shape
(`get_top_rooms` takes no payload, so it vacuously parses). -/
def opParses (op : Op) (j : Json) : Bool :=
  match op with
  | .createRoom => (parseBasicRoomCreation j).isSome
  | .joinRoom _ => (parseGenericRoomIdAndPeerId j).isSome
  | .blockUserFromRoom => (parseBlockUserFromRoom j).isSome
  | .addOrRemoveSpeaker _ => (parseGenericRoomIdAndPeerId j).isSome
  | .raiseOrLowerHand _ => (parseGenericRoomIdAndPeerId j).isSome
  | .webRtc _ => (parseJsonValue j).isSome
  | .getFollowList _ => (parseGetFollowList j).isSome
  | .getTopRooms => true

/-- Whether an operation is one of the mutating operations of Table 1
(create room, join room, block user, add/remove speaker, raise/lower hand). -/
def Op.isMutating : Op → Bool
  | .createRoom => true
  | .joinRoom _ => true
  | .blockUserFromRoom => true
  | .addOrRemoveSpeaker _ => true
  | .raiseOrLowerHand _ => true
  | _ => false

/-- Whether an operation has a validation phase that can reject (the mutating
operations plus the web-RTC relay). -/
def Op.canFailValidation : Op → Bool
  | .webRtc _ => true
  | op => op.isMutating

/-- Table 1 component: the requester/peer exists in the user map and its
`current_room_id` is the sentinel `-1`. -/
def userExistsOutsideRoom (st : ServerState) (uid : Int) : Bool :=
  match st.active_users.lookup uid with
  | some u => u.current_room_id == -1
  | none => false

/-- Table 1 component shared by block-user, add/remove-speaker and
raise/lower-hand: the room exists and both the requester and the target peer
are in its membership set. -/
def roomMembershipCheck (st : ServerState) (room_id requester_id peer_id : Int) : Bool :=
  match st.rooms.lookup room_id with
  | some room => room.user_ids.contains requester_id && room.user_ids.contains peer_id
  | none => false

/-- Table 1 predicate for join room, following the spec's words: the room
exists and is public, the peer exists outside any room, and the peer id is
not in the blocked set reported by the Data Fetcher (the reported set is the
data component of the query, whatever the error flag). -/
def joinPrecondSpec (st : ServerState) (df : DataFetcher)
    (room_id peer_id : Int) : Bool :=
  (match st.rooms.lookup room_id with
   | some room => room.public
   | none => false)
  && userExistsOutsideRoom st peer_id
  && !((df.get_blocked_user_ids_for_room room_id).2.contains peer_id)

/-- The full source-side delegation condition of `join_room`: the Table 1
predicate strengthened with the requirement that the blocked-user fetch
reported no error. -/
def joinSourceCond (st : ServerState) (df : DataFetcher)
    (room_id peer_id : Int) : Bool :=
  joinPrecondSpec st df room_id peer_id
  && (df.get_blocked_user_ids_for_room room_id).1 == false

/-- Whether evaluating `join_room`'s guard cannot hit the `unwrap()` panic:
either the room is absent (short-circuit) or the peer is in the user map. -/
def joinPeerLookupSafe (st : ServerState) (room_id peer_id : Int) : Bool :=
  !(st.rooms.lookup room_id).isSome || (st.active_users.lookup peer_id).isSome

/-- The precondition predicate of Table 1 for an operation, evaluated on the
read view (false also when the payload does not parse, a case the theorems
exclude separately).  For the web-RTC relay the predicate is the delegated
validity check. -/
def specPrecondHolds (op : Op) (j : Json) (st : ServerState) (df : DataFetcher)
    (hp : Helpers) (requester_id : Int) : Bool :=
  match op with
  | .createRoom => userExistsOutsideRoom st requester_id
  | .joinRoom _ =>
    match parseGenericRoomIdAndPeerId j with
    | some d => joinPrecondSpec st df d.roomId d.peerId
    | none => false
  | .blockUserFromRoom =>
    match parseBlockUserFromRoom j with
    | some d => roomMembershipCheck st d.room_id requester_id d.user_id
    | none => false
  | .addOrRemoveSpeaker _ =>
    match parseGenericRoomIdAndPeerId j with
    | some d => roomMembershipCheck st d.roomId requester_id d.peerId
    | none => false
  | .raiseOrLowerHand _ =>
    match parseGenericRoomIdAndPeerId j with
    | some d => roomMembershipCheck st d.roomId requester_id d.peerId
    | none => false
  | .webRtc _ =>
    match parseJsonValue j with
    | some v => hp.web_rtc_request_is_valid st v requester_id
    | none => false
  | _ => true

/-- Whether the handler for an operation cannot panic on this input (only the
join handler can panic, when the room exists but the peer is unknown). -/
def noPanic (op : Op) (j : Json) (st : ServerState) : Bool :=
  match op with
  | .joinRoom _ =>
    match parseGenericRoomIdAndPeerId j with
    | some d => joinPeerLookupSafe st d.roomId d.peerId
    | none => true
  | _ => true

/-- The record that the top-rooms enrichment produces for one room: its id,
its `amount_of_users`, its voice-server id, the fetched owner id, the fetched
preview map, its auto-speaker flag and the fetched chat mode. -/
def commRoomOf (df : DataFetcher) (room : Room) : CommunicationRoom :=
  ⟨room.room_id, room.amount_of_users, room.voice_server_id,
    (df.get_room_owner_and_settings room.room_id).2.1,
    (df.get_user_previews_for_users room.user_ids).2,
    room.auto_speaker, (df.get_room_owner_and_settings room.room_id).2.2⟩

/-- Whether both Data Fetcher calls for a room succeed (no error flag). -/
def roomFetchOk (df : DataFetcher) (room : Room) : Bool :=
  !(df.get_user_previews_for_users room.user_ids).1
    && !(df.get_room_owner_and_settings room.room_id).1

/-- Fixture: the Room Mutator whose transitions are the identity. -/
def idMutator : RoomMutator := ⟨fun _ s => s⟩

/-- Fixture: the web-RTC validity helper that rejects every request. -/
def rejectAllHelpers : Helpers := ⟨fun _ _ _ => false⟩

/-- Fixture: a Data Fetcher that always succeeds and finds nothing. -/
def okFetcher : DataFetcher :=
  ⟨fun _ => (false, []), fun _ => (false, []), fun _ => (false, []),
   fun _ => (false, []), fun _ => (false, 0, "fast")⟩

/-- Fixture: a Data Fetcher whose every query reports its error flag with an
empty data component. -/
def errFetcher : DataFetcher :=
  ⟨fun _ => (true, []), fun _ => (true, []), fun _ => (true, []),
   fun _ => (true, []), fun _ => (true, 0, "fast")⟩

/-- Fixture: the World State with no users and no rooms. -/
def emptyState : ServerState := ⟨[], []⟩

/-- Fixture: a public room with one member, the owner. -/
def pubRoom (rid owner : Int) : Room :=
  ⟨rid, owner, "vs1", [], [owner], [owner], true, false, "fast", 1⟩

/-- Fixture: a user currently in no room (`current_room_id` is the sentinel). -/
def freeUser : User := ⟨false, false, -1⟩

/-- Fixture: user 5 free, public room 1 present. -/
def fetchErrState : ServerState := ⟨[(5, freeUser)], [(1, pubRoom 1 9)]⟩

/-- Fixture: join payload naming room 1 and peer 5. -/
def joinPayload15 : Json := .obj [("roomId", .jnum 1), ("peerId", .jnum 5)]

/-- Fixture: public room 4 present, user map empty. -/
def panicState : ServerState := ⟨[], [(4, pubRoom 4 2)]⟩

/-- Fixture: join payload naming room 4 and peer 8. -/
def joinPayload48 : Json := .obj [("roomId", .jnum 4), ("peerId", .jnum 8)]

/-- Fixture: public room 6 present, user map empty. -/
def unknownPeerState : ServerState := ⟨[], [(6, pubRoom 6 3)]⟩

/-- Fixture: join payload naming room 6 and peer 9. -/
def joinPayload69 : Json := .obj [("roomId", .jnum 6), ("peerId", .jnum 9)]

/-- Fixture: user 7 free, public room 2 present. -/
def fetchErrStateB : ServerState := ⟨[(7, freeUser)], [(2, pubRoom 2 9)]⟩

/-- Fixture: join payload naming room 2 and peer 7. -/
def joinPayload27 : Json := .obj [("roomId", .jnum 2), ("peerId", .jnum 7)]

/-- Fixture: a well-formed create-room payload. -/
def createPayload : Json :=
  .obj [("name", .jstr "x"), ("desc", .jstr "y"), ("public", .jbool true)]

/-- Fixture: user 3 free, no rooms. -/
def oneFreeUserState : ServerState := ⟨[(3, freeUser)], []⟩

/-- Fixture: room 10 with members 11 and 12, both in the user map. -/
def speakerRoomState : ServerState :=
  ⟨[(11, User.mk false false 10), (12, User.mk false false 10)],
   [(10, Room.mk 10 11 "vs2" [] [] [11, 12] true false "fast" 2)]⟩

/-- Fixture: speaker payload naming room 10 and peer 12. -/
def speakerPayload : Json := .obj [("roomId", .jnum 10), ("peerId", .jnum 12)]

/-- Fixture: a follow-list payload whose user-id string is not numeric. -/
def followPayloadBad : Json := .obj [("user_id", .jstr "not-a-number")]

/-- A validation failure on a parsed, panic-free request makes the handler
deliver the single uniform rejection with World State untouched and no Room
Mutator delegation.  Shared by the error-surface claims. -/
theorem validation_failure_rejects (op : Op) (request : BasicRequest)
    (st : ServerState) (df : DataFetcher) (hp : Helpers) (rm : RoomMutator)
    (requester_id : Int)
    (hcan : op.canFailValidation = true)
    (hpar : opParses op request.request_containing_data = true)
    (hpre : specPrecondHolds op request.request_containing_data st df hp requester_id = false)
    (hnp : noPanic op request.request_containing_data st = true) :
    handle op request st df hp rm requester_id =
      some (send_error_response_to_requester st) := by
  cases op with
  | createRoom =>
    simp only [opParses] at hpar
    obtain ⟨d, hd⟩ := Option.isSome_iff_exists.mp hpar
    simp only [specPrecondHolds] at hpre
    simp only [handle, create_room, hd]
    cases hl : st.active_users.lookup requester_id with
    | none => rfl
    | some u =>
      simp only [userExistsOutsideRoom, hl] at hpre
      simp [hpre]
  | joinRoom t =>
    simp only [opParses] at hpar
    obtain ⟨d, hd⟩ := Option.isSome_iff_exists.mp hpar
    simp only [specPrecondHolds, hd] at hpre
    simp only [noPanic, hd] at hnp
    simp only [handle, join_room, hd]
    cases hl : st.rooms.lookup d.roomId with
    | none => rfl
    | some room =>
      simp only [joinPeerLookupSafe, hl] at hnp
      cases hu : st.active_users.lookup d.peerId with
      | none => rw [hu] at hnp; simp at hnp
      | some peer =>
        simp only [joinPrecondSpec, userExistsOutsideRoom, hl, hu] at hpre
        cases hc : (peer.current_room_id == -1) <;>
          cases hpub : room.public <;>
            cases hmem : ((df.get_blocked_user_ids_for_room d.roomId).2.contains d.peerId) <;>
              simp_all
  | blockUserFromRoom =>
    simp only [opParses] at hpar
    obtain ⟨d, hd⟩ := Option.isSome_iff_exists.mp hpar
    simp only [specPrecondHolds, hd] at hpre
    simp only [handle, block_user_from_room, hd]
    cases hl : st.rooms.lookup d.room_id with
    | none => rfl
    | some room =>
      simp only [roomMembershipCheck, hl] at hpre
      cases h1 : room.user_ids.contains requester_id <;>
        cases h2 : room.user_ids.contains d.user_id <;>
          simp_all
  | addOrRemoveSpeaker flag =>
    simp only [opParses] at hpar
    obtain ⟨d, hd⟩ := Option.isSome_iff_exists.mp hpar
    simp only [specPrecondHolds, hd] at hpre
    simp only [handle, add_or_remove_speaker, hd]
    cases hl : st.rooms.lookup d.roomId with
    | none => rfl
    | some room =>
      simp only [roomMembershipCheck, hl] at hpre
      cases h1 : room.user_ids.contains requester_id <;>
        cases h2 : room.user_ids.contains d.peerId <;>
          simp_all
  | raiseOrLowerHand flag =>
    simp only [opParses] at hpar
    obtain ⟨d, hd⟩ := Option.isSome_iff_exists.mp hpar
    simp only [specPrecondHolds, hd] at hpre
    simp only [handle, raise_hand_or_lower_hand, hd]
    cases hl : st.rooms.lookup d.roomId with
    | none => rfl
    | some room =>
      simp only [roomMembershipCheck, hl] at hpre
      cases h1 : room.user_ids.contains requester_id <;>
        cases h2 : room.user_ids.contains d.peerId <;>
          simp_all
  | webRtc oc =>
    simp only [opParses] at hpar
    obtain ⟨v, hv⟩ := Option.isSome_iff_exists.mp hpar
    simp only [specPrecondHolds, hv] at hpre
    simp only [handle, handle_web_rtc_request, hv]
    simp [hpre]
  | getFollowList t =>
    simp [Op.canFailValidation, Op.isMutating] at hcan
  | getTopRooms =>
    simp [Op.canFailValidation, Op.isMutating] at hcan

/-- Characterization of the join handler on inputs that parse and cannot
panic: it delegates exactly under the full source condition (Table 1
predicate plus a successful blocked-user fetch) and otherwise delivers the
uniform rejection. -/
theorem join_room_characterization (request : BasicRequest) (st : ServerState)
    (df : DataFetcher) (rm : RoomMutator) (requester_id : Int) (t : String)
    (d : GenericRoomIdAndPeerId)
    (hd : parseGenericRoomIdAndPeerId request.request_containing_data = some d)
    (hsafe : joinPeerLookupSafe st d.roomId d.peerId = true) :
    join_room request st df rm requester_id t =
      some (if joinSourceCond st df d.roomId d.peerId then
        ⟨.ok, rm.apply (.join_room d.roomId d.peerId requester_id t) st, [],
          [.join_room d.roomId d.peerId requester_id t]⟩
      else send_error_response_to_requester st) := by
  simp only [join_room, hd]
  cases hl : st.rooms.lookup d.roomId with
  | none => simp [joinSourceCond, joinPrecondSpec, hl]
  | some room =>
    simp only [joinPeerLookupSafe, hl] at hsafe
    cases hu : st.active_users.lookup d.peerId with
    | none => rw [hu] at hsafe; simp at hsafe
    | some peer =>
      simp only [joinSourceCond, joinPrecondSpec, userExistsOutsideRoom, hl, hu]
      cases hc : (peer.current_room_id == -1) <;>
        cases hpub : room.public <;>
          cases herr : (df.get_blocked_user_ids_for_room d.roomId).1 <;>
            cases hmem : ((df.get_blocked_user_ids_for_room d.roomId).2.contains d.peerId) <;>
              simp_all

/-- The enrichment loop keeps exactly the rooms whose two fetches succeed, in
order, each mapped to its enriched record. -/
theorem top_rooms_loop_eq (df : DataFetcher) (l : List Room)
    (acc : List CommunicationRoom) :
    top_rooms_loop df l acc =
      acc ++ (l.filter (roomFetchOk df)).map (commRoomOf df) := by
  induction l generalizing acc with
  | nil => simp [top_rooms_loop]
  | cons room rest ih =>
    simp only [top_rooms_loop, List.filter_cons]
    cases hprev : (df.get_user_previews_for_users room.user_ids).1 <;>
      cases howner : (df.get_room_owner_and_settings room.room_id).1 <;>
        simp [roomFetchOk, hprev, howner, ih, construct_communication_room, commRoomOf]

/-- Claim C1 (counterexample) — the claim says a structurally invalid payload
yields the uniform rejection tagged `invalid_request`; at this concrete
input (a create-room request whose payload is not a JSON object) the handler
returns the parse error to its caller and sends nothing at all. -/
theorem claim_C1_counterexample :
    opParses .createRoom Json.nonObj = false ∧
    handle .createRoom ⟨"create_room", Json.nonObj⟩ emptyState okFetcher
      rejectAllHelpers idMutator 1 = some ⟨.parseErr, emptyState, [], []⟩ :=
  ⟨rfl, rfl⟩

/-- Claim C1 (amended) — for every operation and every request whose payload
does not parse into that operation's typed shape, the handler propagates the
parse error to its caller (`Err` through the `?` operator), emits no message
at all (in particular no rejection), performs no Room Mutator delegation,
and leaves World State unchanged — uniformly over all such payloads. -/
theorem claim_C1_parse_failure_silent (op : Op) (request : BasicRequest)
    (st : ServerState) (df : DataFetcher) (hp : Helpers) (rm : RoomMutator)
    (requester_id : Int)
    (hpar : opParses op request.request_containing_data = false) :
    handle op request st df hp rm requester_id =
      some ⟨.parseErr, st, [], []⟩ := by
  cases op with
  | createRoom =>
    simp only [opParses] at hpar
    cases hn : parseBasicRoomCreation request.request_containing_data with
    | some d => rw [hn] at hpar; exact absurd hpar (by simp)
    | none => simp [handle, create_room, hn]
  | joinRoom t =>
    simp only [opParses] at hpar
    cases hn : parseGenericRoomIdAndPeerId request.request_containing_data with
    | some d => rw [hn] at hpar; exact absurd hpar (by simp)
    | none => simp [handle, join_room, hn]
  | blockUserFromRoom =>
    simp only [opParses] at hpar
    cases hn : parseBlockUserFromRoom request.request_containing_data with
    | some d => rw [hn] at hpar; exact absurd hpar (by simp)
    | none => simp [handle, block_user_from_room, hn]
  | addOrRemoveSpeaker flag =>
    simp only [opParses] at hpar
    cases hn : parseGenericRoomIdAndPeerId request.request_containing_data with
    | some d => rw [hn] at hpar; exact absurd hpar (by simp)
    | none => simp [handle, add_or_remove_speaker, hn]
  | raiseOrLowerHand flag =>
    simp only [opParses] at hpar
    cases hn : parseGenericRoomIdAndPeerId request.request_containing_data with
    | some d => rw [hn] at hpar; exact absurd hpar (by simp)
    | none => simp [handle, raise_hand_or_lower_hand, hn]
  | webRtc oc =>
    simp only [opParses] at hpar
    cases hn : parseJsonValue request.request_containing_data with
    | some d => rw [hn] at hpar; exact absurd hpar (by simp)
    | none => simp [handle, handle_web_rtc_request, hn]
  | getFollowList t =>
    simp only [opParses] at hpar
    cases hn : parseGetFollowList request.request_containing_data with
    | some d => rw [hn] at hpar; exact absurd hpar (by simp)
    | none => simp [handle, get_followers_or_following_list, hn]
  | getTopRooms =>
    simp [opParses] at hpar

/-- Claim C1 (witness) — the amended theorem applied to a raise-hand request
whose payload string is not valid JSON. -/
theorem claim_C1_witness :
    opParses (.raiseOrLowerHand "raise") Json.malformed = false ∧
    handle (.raiseOrLowerHand "raise") ⟨"raise_hand", Json.malformed⟩ emptyState
      okFetcher rejectAllHelpers idMutator 3 = some ⟨.parseErr, emptyState, [], []⟩ :=
  ⟨by decide, claim_C1_parse_failure_silent (.raiseOrLowerHand "raise")
    ⟨"raise_hand", Json.malformed⟩ emptyState okFetcher rejectAllHelpers idMutator 3 (by decide)⟩

/-- Claim C2 (counterexample) — the claim says a mutating request whose
precondition predicate fails gets exactly one uniform rejection; at this
concrete input (a join for a room that exists while the peer id is absent
from the user map, so the Table 1 predicate is false) the handler panics on
`unwrap()` instead of rejecting. -/
theorem claim_C2_counterexample :
    Op.isMutating (.joinRoom "join-as-peer") = true ∧
    opParses (.joinRoom "join-as-peer") joinPayload48 = true ∧
    specPrecondHolds (.joinRoom "join-as-peer") joinPayload48 panicState
      okFetcher rejectAllHelpers 8 = false ∧
    handle (.joinRoom "join-as-peer") ⟨"join_room", joinPayload48⟩ panicState
      okFetcher rejectAllHelpers idMutator 8 = none :=
  ⟨rfl, by decide, by decide, by decide⟩

/-- Claim C2 (amended) — for every mutating operation and every parsed
request whose Table 1 precondition predicate fails, provided the handler
does not hit the join `unwrap()` panic (the named peer is in the user map
whenever the named room exists), the coordinator delivers exactly one
uniform rejection, delegates nothing, and leaves the user map and the room
map of World State unchanged. -/
theorem claim_C2_precondition_failure_uniform_rejection (op : Op)
    (request : BasicRequest) (st : ServerState) (df : DataFetcher)
    (hp : Helpers) (rm : RoomMutator) (requester_id : Int)
    (hmut : op.isMutating = true)
    (hpar : opParses op request.request_containing_data = true)
    (hpre : specPrecondHolds op request.request_containing_data st df hp requester_id = false)
    (hnp : noPanic op request.request_containing_data st = true) :
    handle op request st df hp rm requester_id =
      some (send_error_response_to_requester st) := by
  refine validation_failure_rejects op request st df hp rm requester_id ?_ hpar hpre hnp
  cases op <;> simp_all [Op.canFailValidation, Op.isMutating]

/-- Claim C2 (witness) — the amended theorem applied to a create-room
request by a requester absent from the user map. -/
theorem claim_C2_witness :
    Op.isMutating .createRoom = true ∧
    opParses .createRoom createPayload = true ∧
    specPrecondHolds .createRoom createPayload emptyState okFetcher rejectAllHelpers 1 = false ∧
    noPanic .createRoom createPayload emptyState = true ∧
    handle .createRoom ⟨"create_room", createPayload⟩ emptyState okFetcher
      rejectAllHelpers idMutator 1 = some (send_error_response_to_requester emptyState) :=
  ⟨rfl, by decide, by decide, rfl,
   claim_C2_precondition_failure_uniform_rejection .createRoom
     ⟨"create_room", createPayload⟩ emptyState okFetcher rejectAllHelpers
     idMutator 1 rfl (by decide) (by decide) rfl⟩

/-- Claim C3 (counterexample) — the claim's delegation condition (room
exists, peer free, room public, peer not in the reported blocked set) holds
at this concrete input, yet because the blocked-user fetch reported its
error flag the handler rejects instead of delegating. -/
theorem claim_C3_counterexample :
    joinPrecondSpec fetchErrState errFetcher 1 5 = true ∧
    handle (.joinRoom "join-as-peer") ⟨"join_room", joinPayload15⟩ fetchErrState
      errFetcher rejectAllHelpers idMutator 5 =
      some (send_error_response_to_requester fetchErrState) ∧
    (send_error_response_to_requester fetchErrState).calls = [] :=
  ⟨by decide, by decide, rfl⟩

/-- Claim C3 (amended) — for every parsed join request that cannot hit the
unknown-peer panic, the coordinator delegates to the Room Mutator's
`join_room` if and only if the room exists, the peer's `current_room_id` is
the sentinel, the room is public, the blocked-user fetch reports no error,
and the peer is not in the fetched set; otherwise it delivers the uniform
rejection.  (When the room exists and the peer is absent from the user map
the handler panics instead — the excluded case.) -/
theorem claim_C3_join_delegation_gate (request : BasicRequest)
    (st : ServerState) (df : DataFetcher) (hp : Helpers) (rm : RoomMutator)
    (requester_id : Int) (t : String) (d : GenericRoomIdAndPeerId)
    (hd : parseGenericRoomIdAndPeerId request.request_containing_data = some d)
    (hsafe : joinPeerLookupSafe st d.roomId d.peerId = true) :
    handle (.joinRoom t) request st df hp rm requester_id =
      some (if joinSourceCond st df d.roomId d.peerId then
        ⟨.ok, rm.apply (.join_room d.roomId d.peerId requester_id t) st, [],
          [.join_room d.roomId d.peerId requester_id t]⟩
      else send_error_response_to_requester st) := by
  simp only [handle]
  exact join_room_characterization request st df rm requester_id t d hd hsafe

/-- Claim C3 (witness) — the amended theorem applied to a join request that
parses, with the peer present in the user map. -/
theorem claim_C3_witness :
    parseGenericRoomIdAndPeerId joinPayload15 = some ⟨1, 5⟩ ∧
    joinPeerLookupSafe fetchErrState 1 5 = true ∧
    handle (.joinRoom "join-as-peer") ⟨"join_room", joinPayload15⟩ fetchErrState
      okFetcher rejectAllHelpers idMutator 5 =
      some (if joinSourceCond fetchErrState okFetcher 1 5 then
        ⟨.ok, idMutator.apply (.join_room 1 5 5 "join-as-peer") fetchErrState, [],
          [.join_room 1 5 5 "join-as-peer"]⟩
      else send_error_response_to_requester fetchErrState) :=
  ⟨by decide, by decide,
   claim_C3_join_delegation_gate ⟨"join_room", joinPayload15⟩ fetchErrState
     okFetcher rejectAllHelpers idMutator 5 "join-as-peer" ⟨1, 5⟩ (by decide) (by decide)⟩

/-- Claim C4 (counterexample) — the claim says a failed blocked-user fetch
degrades to an empty blocked set so the join proceeds; at this concrete
input the fetch reports its error flag with an empty set and the join is
rejected, while the identical request under a successful fetch with the
same (empty) set delegates. -/
theorem claim_C4_counterexample :
    (errFetcher.get_blocked_user_ids_for_room 2).1 = true ∧
    (errFetcher.get_blocked_user_ids_for_room 2).2 = [] ∧
    handle (.joinRoom "join-as-peer") ⟨"join_room", joinPayload27⟩ fetchErrStateB
      errFetcher rejectAllHelpers idMutator 7 =
      some (send_error_response_to_requester fetchErrStateB) ∧
    handle (.joinRoom "join-as-peer") ⟨"join_room", joinPayload27⟩ fetchErrStateB
      okFetcher rejectAllHelpers idMutator 7 =
      some ⟨.ok, fetchErrStateB, [], [.join_room 2 7 7 "join-as-peer"]⟩ :=
  ⟨rfl, rfl, by decide, by decide⟩

/-- Claim C4 (amended) — for every parsed, panic-free join request whose
blocked-user fetch reports its failure flag, the coordinator fails closed:
it delivers the uniform rejection and does not delegate, rather than
treating the blocked set as empty. -/
theorem claim_C4_fetch_error_fails_closed (request : BasicRequest)
    (st : ServerState) (df : DataFetcher) (hp : Helpers) (rm : RoomMutator)
    (requester_id : Int) (t : String) (d : GenericRoomIdAndPeerId)
    (hd : parseGenericRoomIdAndPeerId request.request_containing_data = some d)
    (hsafe : joinPeerLookupSafe st d.roomId d.peerId = true)
    (herr : (df.get_blocked_user_ids_for_room d.roomId).1 = true) :
    handle (.joinRoom t) request st df hp rm requester_id =
      some (send_error_response_to_requester st) := by
  simp only [handle]
  rw [join_room_characterization request st df rm requester_id t d hd hsafe]
  simp [joinSourceCond, herr]

/-- Claim C4 (witness) — the amended theorem applied to a join request under
the always-failing fetcher. -/
theorem claim_C4_witness :
    parseGenericRoomIdAndPeerId joinPayload27 = some ⟨2, 7⟩ ∧
    joinPeerLookupSafe fetchErrStateB 2 7 = true ∧
    (errFetcher.get_blocked_user_ids_for_room 2).1 = true ∧
    handle (.joinRoom "join-as-peer") ⟨"join_room", joinPayload27⟩ fetchErrStateB
      errFetcher rejectAllHelpers idMutator 7 =
      some (send_error_response_to_requester fetchErrStateB) :=
  ⟨by decide, by decide, rfl,
   claim_C4_fetch_error_fails_closed ⟨"join_room", joinPayload27⟩ fetchErrStateB
     errFetcher rejectAllHelpers idMutator 7 "join-as-peer" ⟨2, 7⟩
     (by decide) (by decide) rfl⟩

/-- Claim C5 — at a join request naming a room that exists and a peer id
absent from the active-user map, the handling task does not complete the
request or emit a rejection: the `unwrap()` on the user-map lookup panics
(modelled as `none`), contradicting the claim that no error is fatal to the
handling task. -/
theorem claim_C5_join_unknown_peer_panics :
    (unknownPeerState.rooms.lookup 6).isSome = true ∧
    unknownPeerState.active_users.lookup 9 = none ∧
    handle (.joinRoom "join-as-speaker") ⟨"join_room", joinPayload69⟩
      unknownPeerState okFetcher rejectAllHelpers idMutator 9 = none := by
  refine ⟨rfl, rfl, by decide⟩

/-- Claim C6 — for every parsed create-room request, the coordinator
delegates to the Room Mutator's `create_room` (with the requester id and the
parsed name, description and visibility) if and only if the requester exists
in the active-user map with `current_room_id` equal to the sentinel `-1`;
otherwise it delivers the uniform rejection with World State unchanged. -/
theorem claim_C6_create_room_gate (request : BasicRequest) (st : ServerState)
    (df : DataFetcher) (hp : Helpers) (rm : RoomMutator) (requester_id : Int)
    (d : BasicRoomCreation)
    (hd : parseBasicRoomCreation request.request_containing_data = some d) :
    handle .createRoom request st df hp rm requester_id =
      some (if userExistsOutsideRoom st requester_id then
        ⟨.ok, rm.apply (.create_room requester_id d.name d.desc d.public) st, [],
          [.create_room requester_id d.name d.desc d.public]⟩
      else send_error_response_to_requester st) := by
  simp only [handle, create_room, hd]
  cases hl : st.active_users.lookup requester_id with
  | none => simp [userExistsOutsideRoom, hl]
  | some u => simp [userExistsOutsideRoom, hl]

/-- Claim C6 (witness) — the theorem applied to a free user creating a room,
which delegates. -/
theorem claim_C6_witness :
    parseBasicRoomCreation createPayload = some ⟨"x", "y", true⟩ ∧
    handle .createRoom ⟨"create_room", createPayload⟩ oneFreeUserState okFetcher
      rejectAllHelpers idMutator 3 =
      some (if userExistsOutsideRoom oneFreeUserState 3 then
        ⟨.ok, idMutator.apply (.create_room 3 "x" "y" true) oneFreeUserState, [],
          [.create_room 3 "x" "y" true]⟩
      else send_error_response_to_requester oneFreeUserState) :=
  ⟨by decide,
   claim_C6_create_room_gate ⟨"create_room", createPayload⟩ oneFreeUserState
     okFetcher rejectAllHelpers idMutator 3 ⟨"x", "y", true⟩ (by decide)⟩

/-- Claim C7 — for every parsed add/remove-speaker request, the coordinator
delegates to the Room Mutator (`add_speaker` when the flag is `"add"`,
`remove_speaker` otherwise) if and only if the room exists and both the
requester and the target peer are in its `user_ids`; otherwise it delivers
the uniform rejection with World State unchanged. -/
theorem claim_C7_speaker_gate (request : BasicRequest) (st : ServerState)
    (df : DataFetcher) (hp : Helpers) (rm : RoomMutator) (requester_id : Int)
    (flag : String) (d : GenericRoomIdAndPeerId)
    (hd : parseGenericRoomIdAndPeerId request.request_containing_data = some d) :
    handle (.addOrRemoveSpeaker flag) request st df hp rm requester_id =
      some (if roomMembershipCheck st d.roomId requester_id d.peerId then
        (if flag == "add" then
          ⟨.ok, rm.apply (.add_speaker d.roomId d.peerId requester_id) st, [],
            [.add_speaker d.roomId d.peerId requester_id]⟩
        else
          ⟨.ok, rm.apply (.remove_speaker d.roomId d.peerId requester_id) st, [],
            [.remove_speaker d.roomId d.peerId requester_id]⟩)
      else send_error_response_to_requester st) := by
  simp only [handle, add_or_remove_speaker, hd]
  cases hl : st.rooms.lookup d.roomId with
  | none => simp [roomMembershipCheck, hl]
  | some room => simp [roomMembershipCheck, hl]

/-- Claim C7 (witness) — the theorem applied to an add-speaker request by a
member for a member, which delegates to `add_speaker`. -/
theorem claim_C7_witness :
    parseGenericRoomIdAndPeerId speakerPayload = some ⟨10, 12⟩ ∧
    handle (.addOrRemoveSpeaker "add") ⟨"add_speaker", speakerPayload⟩
      speakerRoomState okFetcher rejectAllHelpers idMutator 11 =
      some (if roomMembershipCheck speakerRoomState 10 11 12 then
        (if "add" == "add" then
          ⟨.ok, idMutator.apply (.add_speaker 10 12 11) speakerRoomState, [],
            [.add_speaker 10 12 11]⟩
        else
          ⟨.ok, idMutator.apply (.remove_speaker 10 12 11) speakerRoomState, [],
            [.remove_speaker 10 12 11]⟩)
      else send_error_response_to_requester speakerRoomState) :=
  ⟨by decide,
   claim_C7_speaker_gate ⟨"add_speaker", speakerPayload⟩ speakerRoomState
     okFetcher rejectAllHelpers idMutator 11 "add" ⟨10, 12⟩ (by decide)⟩

/-- Claim C8 (counterexample) — the claim covers pairs of requests failing
validation or parsing; at this concrete pair, the parse-failing block-user
request delivers no message at all while the validation-failing create-room
request delivers the uniform rejection, so the responses are not
identical. -/
theorem claim_C8_counterexample :
    opParses .blockUserFromRoom Json.nonObj = false ∧
    handle .blockUserFromRoom ⟨"block_user_from_room", Json.nonObj⟩ emptyState
      okFetcher rejectAllHelpers idMutator 2 = some ⟨.parseErr, emptyState, [], []⟩ ∧
    handle .createRoom ⟨"create_room", createPayload⟩ emptyState okFetcher
      rejectAllHelpers idMutator 2 = some (send_error_response_to_requester emptyState) :=
  ⟨rfl, rfl, by decide⟩

/-- Claim C8 (amended) — for any two requests (for any validating
operations, possibly different, on any states, fetchers, helpers and
requesters) that each fail validation without panicking, the delivered
response is identical: exactly the one uniform rejection message with the
fixed tag `invalid_request` and the fixed payload, revealing nothing about
which precondition failed.  Parse failures are excluded: they deliver
nothing (claim C1). -/
theorem claim_C8_validation_rejections_identical (opa opb : Op)
    (reqa reqb : BasicRequest) (sa sb : ServerState) (dfa dfb : DataFetcher)
    (hpa hpb : Helpers) (rma rmb : RoomMutator) (ra rb : Int)
    (h1 : opa.canFailValidation = true)
    (h2 : opParses opa reqa.request_containing_data = true)
    (h3 : specPrecondHolds opa reqa.request_containing_data sa dfa hpa ra = false)
    (h4 : noPanic opa reqa.request_containing_data sa = true)
    (h5 : opb.canFailValidation = true)
    (h6 : opParses opb reqb.request_containing_data = true)
    (h7 : specPrecondHolds opb reqb.request_containing_data sb dfb hpb rb = false)
    (h8 : noPanic opb reqb.request_containing_data sb = true) :
    handle opa reqa sa dfa hpa rma ra = some (send_error_response_to_requester sa) ∧
    handle opb reqb sb dfb hpb rmb rb = some (send_error_response_to_requester sb) ∧
    (send_error_response_to_requester sa).sent = [uniformRejection] ∧
    (send_error_response_to_requester sb).sent = [uniformRejection] :=
  ⟨validation_failure_rejects opa reqa sa dfa hpa rma ra h1 h2 h3 h4,
   validation_failure_rejects opb reqb sb dfb hpb rmb rb h5 h6 h7 h8,
   rfl, rfl⟩

/-- Claim C8 (witness) — the amended theorem applied to a create-room
request by an unknown requester and a web-RTC request the validity helper
rejects: both deliver the identical uniform rejection. -/
theorem claim_C8_witness :
    Op.canFailValidation .createRoom = true ∧
    Op.canFailValidation (.webRtc "@send-track") = true ∧
    specPrecondHolds .createRoom createPayload emptyState okFetcher rejectAllHelpers 1 = false ∧
    specPrecondHolds (.webRtc "@send-track") Json.nonObj emptyState okFetcher rejectAllHelpers 2 = false ∧
    handle .createRoom ⟨"create_room", createPayload⟩ emptyState okFetcher
      rejectAllHelpers idMutator 1 = some (send_error_response_to_requester emptyState) ∧
    handle (.webRtc "@send-track") ⟨"@send-track", Json.nonObj⟩ emptyState okFetcher
      rejectAllHelpers idMutator 2 = some (send_error_response_to_requester emptyState) ∧
    (send_error_response_to_requester emptyState).sent = [uniformRejection] :=
  ⟨rfl, rfl, by decide, by decide,
   (claim_C8_validation_rejections_identical .createRoom (.webRtc "@send-track")
     ⟨"create_room", createPayload⟩ ⟨"@send-track", Json.nonObj⟩ emptyState
     emptyState okFetcher okFetcher rejectAllHelpers rejectAllHelpers idMutator
     idMutator 1 2 rfl (by decide) (by decide) rfl rfl (by decide) (by decide) rfl).1,
   (claim_C8_validation_rejections_identical .createRoom (.webRtc "@send-track")
     ⟨"create_room", createPayload⟩ ⟨"@send-track", Json.nonObj⟩ emptyState
     emptyState okFetcher okFetcher rejectAllHelpers rejectAllHelpers idMutator
     idMutator 1 2 rfl (by decide) (by decide) rfl rfl (by decide) (by decide) rfl).2.1,
   rfl⟩

/-- Claim C9 — for every state and fetcher, the top-rooms handler leaves
World State unchanged, delegates nothing, and delivers exactly one message
tagged `top_rooms` whose list is the sorted room snapshot filtered to the
rooms for which both Data Fetcher calls succeed, each enriched; the list is
ordered by `amount_of_users` (the membership size field) ascending, and the
kept rooms are exactly the rooms of the snapshot whose fetches succeed (a
fetch error excludes only that room). -/
theorem claim_C9_top_rooms_content_order_delivery (st : ServerState)
    (df : DataFetcher) :
    get_top_rooms st df =
      ⟨.ok, st,
        [⟨"top_rooms", .rooms ((((st.rooms.map Prod.snd).insertionSort roomLe).filter
          (roomFetchOk df)).map (commRoomOf df))⟩], []⟩ ∧
    List.Sorted (fun a b => a.num_of_people_in_room ≤ b.num_of_people_in_room)
      ((((st.rooms.map Prod.snd).insertionSort roomLe).filter
        (roomFetchOk df)).map (commRoomOf df)) ∧
    List.Perm (((st.rooms.map Prod.snd).insertionSort roomLe).filter (roomFetchOk df))
      ((st.rooms.map Prod.snd).filter (roomFetchOk df)) := by
  refine ⟨?_, ?_, ?_⟩
  · simp [get_top_rooms, top_rooms_loop_eq]
  · have hs : List.Sorted roomLe ((st.rooms.map Prod.snd).insertionSort roomLe) :=
      List.sorted_insertionSort roomLe _
    have hf : List.Sorted roomLe (((st.rooms.map Prod.snd).insertionSort roomLe).filter
        (roomFetchOk df)) := hs.filter _
    exact List.pairwise_map.mpr (hf.imp (fun h => h))
  · exact (List.perm_insertionSort roomLe _).filter _

/-- Claim C10 — for every follow-list request whose `GetFollowList` payload
parses but whose user-id string fails the secondary peer-and-room-id parse,
the handler returns `Ok(())` having delivered nothing: no follow list, no
rejection, no delegation, and World State unchanged. -/
theorem claim_C10_follow_list_silent_secondary_parse (request : BasicRequest)
    (st : ServerState) (df : DataFetcher) (hp : Helpers) (rm : RoomMutator)
    (requester_id : Int) (t : String) (d : GetFollowList)
    (hd : parseGetFollowList request.request_containing_data = some d)
    (hfail : parse_peer_and_room_id d.user_id "-1" = none) :
    handle (.getFollowList t) request st df hp rm requester_id =
      some ⟨.ok, st, [], []⟩ := by
  simp [handle, get_followers_or_following_list, hd, hfail]

/-- Claim C10 (witness) — the theorem applied to a payload whose user-id
string is not numeric. -/
theorem claim_C10_witness :
    parseGetFollowList followPayloadBad = some ⟨"not-a-number"⟩ ∧
    parse_peer_and_room_id "not-a-number" "-1" = none ∧
    handle (.getFollowList "followers") ⟨"get_followers", followPayloadBad⟩
      emptyState okFetcher rejectAllHelpers idMutator 4 = some ⟨.ok, emptyState, [], []⟩ :=
  ⟨rfl, by decide,
   claim_C10_follow_list_silent_secondary_parse ⟨"get_followers", followPayloadBad⟩
     emptyState okFetcher rejectAllHelpers idMutator 4 "followers"
     ⟨"not-a-number"⟩ rfl (by decide)⟩
